import Mathlib

/-!
# SkillAssessGPT — verification of the generation/validation pipeline

Shallow embedding of the core of the SkillAssessGPT repository
(`src/models.py`, `src/generator.py`, `src/critic.py`) and proofs of the
frozen claims about it.

Modelling conventions:
* Python strings are modelled as `List Char` (`PyStr`); `str.strip`,
  `startswith`, `endswith` and slicing become the corresponding list
  operations.
* Python exceptions become an explicit error type `PyErr`; fallible
  constructors (`__post_init__` validation) become functions returning
  `Except PyErr α`.  `JSONDecodeError <: ValueError <: Exception` is kept
  as three distinguishable constructors, matched in the order the
  `except` clauses appear in the source.
* `json.loads` is modelled by a fuel-based recursive-descent parser over
  the JSON value type `Json`.  Numbers are restricted to integers (the
  repository only ever produces and consumes integer fields) and string
  escapes to the single-character ones; Python's error messages with
  line/column positions are abbreviated to their leading phrase
  ("Expecting value", "Extra data", ...).  None of the claims depends on
  the parts this restricts.
* `datetime.now()` is modelled by threading an explicit `now : String`
  parameter into every constructor that defaults a timestamp.
* The external Gemini call (`_call_api`) is a network effect; the retry
  loops are parameterised over an abstract attempt function
  `Nat → Except PyErr α` giving the outcome of each attempt.
-/

namespace SkillAssess

/-! ## Python string primitives -/

/-- Python string, modelled as its list of characters. -/
abbrev PyStr := List Char

/-- The whitespace characters stripped by Python's `str.strip()`
(space, tab, newline, carriage return, vertical tab, form feed). -/
def pyIsWs (c : Char) : Bool :=
  c == ' ' || c == '\t' || c == '\n' || c == '\r' ||
  c == Char.ofNat 11 || c == Char.ofNat 12

/-- Left strip: drop leading whitespace. -/
def stripL (s : PyStr) : PyStr := s.dropWhile pyIsWs

/-- Right strip: drop trailing whitespace. -/
def stripR (s : PyStr) : PyStr := (s.reverse.dropWhile pyIsWs).reverse

/-- Python `str.strip()`. -/
def pyStrip (s : PyStr) : PyStr := stripR (stripL s)

/-- Python `str.startswith(p)`. -/
def pyStartsWith (p s : PyStr) : Bool := p.isPrefixOf s

/-- Python `str.endswith(p)`. -/
def pyEndsWith (p s : PyStr) : Bool := p.reverse.isPrefixOf s.reverse

/-- Python truthiness of a string / blank test used by `__post_init__`
checks of the form `not s or not s.strip()`. -/
def pyBlank (s : String) : Bool := (pyStrip s.data).isEmpty

/-! ## JSON values (the result of `json.loads`) -/

/-- A parsed JSON document.  Objects keep their entries in source order,
mirroring Python's insertion-ordered `dict`. -/
inductive Json where
  | null
  | bool (b : Bool)
  | num (n : Int)
  | str (s : String)
  | arr (elems : List Json)
  | obj (entries : List (String × Json))
deriving Repr

/-- `d.get(k)` on a parsed-JSON dict: first entry with the key. -/
def jLookup (entries : List (String × Json)) (k : String) : Option Json :=
  (entries.find? (fun e => e.1 == k)).map (·.2)

/-- Python `d.get(k, default)`. -/
def jGetD (entries : List (String × Json)) (k : String) (d : Json) : Json :=
  (jLookup entries k).getD d

/-- Python `k in d`. -/
def jHasKey (entries : List (String × Json)) (k : String) : Bool :=
  (jLookup entries k).isSome

/-! ## Python exceptions -/

/-- The exception shapes the pipeline distinguishes.  In Python,
`json.JSONDecodeError` is a subclass of `ValueError`, itself a subclass
of `Exception`; the source's `except` clauses list them most specific
first, so a three-way sum is faithful. -/
inductive PyErr where
  | jsonDecodeError (msg : String)
  | valueError (msg : String)
  | exception (msg : String)
deriving Repr, DecidableEq

/-- Python `str(e)` on an exception: its message. -/
def PyErr.pyStr : PyErr → String
  | .jsonDecodeError m => m
  | .valueError m => m
  | .exception m => m

/-! ## `json.loads`, as a fuel-based recursive-descent parser -/

/-- Skip JSON whitespace. -/
def skipWs (s : PyStr) : PyStr := s.dropWhile pyIsWs

/-- Parse the remainder of a JSON string literal after the opening quote.
Accumulates characters; handles the single-character escapes. -/
def parseStringRest : PyStr → List Char → Except String (String × PyStr)
  | [], _ => .error "Unterminated string"
  | '"' :: rest, acc => .ok (⟨acc.reverse⟩, rest)
  | '\\' :: c :: rest, acc =>
      match c with
      | '"' => parseStringRest rest ('"' :: acc)
      | '\\' => parseStringRest rest ('\\' :: acc)
      | '/' => parseStringRest rest ('/' :: acc)
      | 'n' => parseStringRest rest ('\n' :: acc)
      | 't' => parseStringRest rest ('\t' :: acc)
      | 'r' => parseStringRest rest ('\r' :: acc)
      | 'b' => parseStringRest rest (Char.ofNat 8 :: acc)
      | 'f' => parseStringRest rest (Char.ofNat 12 :: acc)
      | _ => .error "Invalid escape"
  | ['\\'], _ => .error "Unterminated string"
  | c :: rest, acc => parseStringRest rest (c :: acc)

/-- Digits to a natural number value. -/
def digitsToNat (ds : List Char) : Nat :=
  ds.foldl (fun acc c => acc * 10 + (c.toNat - '0'.toNat)) 0

/-- Parse a JSON integer (optional minus sign, then digits). -/
def parseIntLit (s : PyStr) : Except String (Int × PyStr) :=
  let (neg, s') := match s with
    | '-' :: rest => (true, rest)
    | _ => (false, s)
  let ds := s'.takeWhile Char.isDigit
  let rest := s'.dropWhile Char.isDigit
  if ds.isEmpty then .error "Expecting value"
  else
    let n : Int := Int.ofNat (digitsToNat ds)
    .ok (if neg then -n else n, rest)

mutual

/-- Parse one JSON value from the front of the input. -/
def parseJsonVal (fuel : Nat) (s : PyStr) : Except String (Json × PyStr) :=
  match fuel with
  | 0 => .error "Too deeply nested"
  | fuel + 1 =>
    match skipWs s with
    | [] => .error "Expecting value"
    | 'n' :: 'u' :: 'l' :: 'l' :: rest => .ok (.null, rest)
    | 't' :: 'r' :: 'u' :: 'e' :: rest => .ok (.bool true, rest)
    | 'f' :: 'a' :: 'l' :: 's' :: 'e' :: rest => .ok (.bool false, rest)
    | '"' :: rest => do
        let (str, rest) ← parseStringRest rest []
        .ok (.str str, rest)
    | '[' :: rest =>
        (match skipWs rest with
         | ']' :: rest' => .ok (.arr [], rest')
         | _ => do
            let (es, rest') ← parseArrItems fuel rest
            .ok (.arr es, rest'))
    | '{' :: rest =>
        (match skipWs rest with
         | '}' :: rest' => .ok (.obj [], rest')
         | _ => do
            let (kvs, rest') ← parseObjItems fuel rest
            .ok (.obj kvs, rest'))
    | s' => do
        let (n, rest) ← parseIntLit s'
        .ok (.num n, rest)

/-- Parse the comma-separated items of a (non-empty) JSON array, up to
and including the closing bracket. -/
def parseArrItems (fuel : Nat) (s : PyStr) : Except String (List Json × PyStr) :=
  match fuel with
  | 0 => .error "Too deeply nested"
  | fuel + 1 => do
    let (v, rest) ← parseJsonVal fuel s
    match skipWs rest with
    | ']' :: rest' => .ok ([v], rest')
    | ',' :: rest' => do
        let (vs, rest'') ← parseArrItems fuel rest'
        .ok (v :: vs, rest'')
    | _ => .error "Expecting comma delimiter"

/-- Parse the comma-separated members of a (non-empty) JSON object, up to
and including the closing brace. -/
def parseObjItems (fuel : Nat) (s : PyStr) : Except String (List (String × Json) × PyStr) :=
  match fuel with
  | 0 => .error "Too deeply nested"
  | fuel + 1 =>
    match skipWs s with
    | '"' :: rest => do
        let (k, rest₁) ← parseStringRest rest []
        match skipWs rest₁ with
        | ':' :: rest₂ => do
            let (v, rest₃) ← parseJsonVal fuel rest₂
            match skipWs rest₃ with
            | '}' :: rest₄ => .ok ([(k, v)], rest₄)
            | ',' :: rest₄ => do
                let (kvs, rest₅) ← parseObjItems fuel rest₄
                .ok ((k, v) :: kvs, rest₅)
            | _ => .error "Expecting comma delimiter"
        | _ => .error "Expecting colon delimiter"
    | _ => .error "Expecting property name"

end

/-- `json.loads` over the character list: parse one value, demand the
rest be whitespace, classify failures as `JSONDecodeError`. -/
def jsonLoads (s : PyStr) : Except PyErr Json :=
  match parseJsonVal (s.length + 1) s with
  | .error m => .error (.jsonDecodeError m)
  | .ok (v, rest) =>
      if (skipWs rest).isEmpty then .ok v
      else .error (.jsonDecodeError "Extra data")

end SkillAssess

namespace SkillAssess

/-! ## Coercions from untyped JSON values

Python stores the fetched values untyped and only trips over a wrong
type later (e.g. `.strip()` on a non-string raises `AttributeError`).
The model is typed, so each read coerces eagerly and raises a generic
`Exception` on a type mismatch; every claim below either assumes a
well-typed payload or only needs that a bad payload fails. -/

def asStr : Json → Except PyErr String
  | .str s => .ok s
  | _ => .error (.exception "TypeError: expected a string")

def asInt : Json → Except PyErr Int
  | .num n => .ok n
  | _ => .error (.exception "TypeError: expected an integer")

def asArr : Json → Except PyErr (List Json)
  | .arr xs => .ok xs
  | _ => .error (.exception "TypeError: expected a list")

def asObj : Json → Except PyErr (List (String × Json))
  | .obj kvs => .ok kvs
  | _ => .error (.exception "AttributeError: object has no attribute get")

def asBool : Json → Except PyErr Bool
  | .bool b => .ok b
  | _ => .error (.exception "TypeError: expected a boolean")

def asStrList (j : Json) : Except PyErr (List String) := do
  let xs ← asArr j
  xs.mapM asStr

/-- `tuple(x)` where `x` came from a `*_range` field: the repository
always supplies two-element integer lists. -/
def asIntPair (j : Json) : Except PyErr (Int × Int) := do
  let xs ← asArr j
  match xs with
  | [a, b] => do
      let a' ← asInt a
      let b' ← asInt b
      .ok (a', b')
  | _ => .error (.exception "TypeError: expected a pair")

/-- A `criteria_points` mapping: criterion label to integer points. -/
def asStrIntMap (j : Json) : Except PyErr (List (String × Int)) := do
  let kvs ← asObj j
  kvs.mapM (fun kv => do
    let v ← asInt kv.2
    .ok (kv.1, v))

/-! ## Domain model (`src/models.py`)

Each dataclass becomes a structure plus a validating factory mirroring
its `__post_init__`; the factory returns `Except PyErr` where Python
raises `ValueError`. -/

/-- `models.CompetencyInput`. -/
structure CompetencyInput where
  competency : String
  element : String := ""
  niveau : String := ""
  parcours : String := ""
  specialite : String := ""
  duree : String := ""
deriving Repr, DecidableEq

/-- `CompetencyInput.__post_init__`: required fields non-blank. -/
def mkCompetencyInput (competency element niveau parcours specialite duree : String) :
    Except PyErr CompetencyInput :=
  if pyBlank competency then .error (.valueError "Competency field cannot be empty")
  else if pyBlank niveau then .error (.valueError "Niveau field cannot be empty")
  else if pyBlank parcours then .error (.valueError "Parcours field cannot be empty")
  else if pyBlank specialite then .error (.valueError "Specialite field cannot be empty")
  else if pyBlank duree then .error (.valueError "Duree field cannot be empty")
  else .ok ⟨competency, element, niveau, parcours, specialite, duree⟩

/-- `models.Criterion`. -/
structure Criterion where
  description : String
  indicators : List String := []
  points : Int := 0
deriving Repr, DecidableEq

/-- `Criterion.__post_init__`: description non-blank. -/
def mkCriterion (description : String) (indicators : List String) (points : Int) :
    Except PyErr Criterion :=
  if pyBlank description then .error (.valueError "Criterion description cannot be empty")
  else .ok ⟨description, indicators, points⟩

/-- `Criterion.from_dict`. -/
def Criterion.from_dict (data : Json) : Except PyErr Criterion := do
  let kvs ← asObj data
  let description ← asStr (jGetD kvs "description" (.str ""))
  let indicators ← asStrList (jGetD kvs "indicators" (.arr []))
  let points ← asInt (jGetD kvs "points" (.num 0))
  mkCriterion description indicators points

/-- `models.APCGrid` (the spec's AssessmentGrid). -/
structure APCGrid where
  nd_criteria : List Criterion
  ni_criteria : List Criterion
  na_criteria : List Criterion
deriving Repr, DecidableEq

/-- `APCGrid.__post_init__`: each tier has at least 3 criteria. -/
def mkAPCGrid (nd ni na : List Criterion) : Except PyErr APCGrid :=
  if nd.length < 3 then .error (.valueError "ND level must have at least 3 criteria")
  else if ni.length < 3 then .error (.valueError "NI level must have at least 3 criteria")
  else if na.length < 3 then .error (.valueError "NA level must have at least 3 criteria")
  else .ok ⟨nd, ni, na⟩

/-- `APCGrid.from_dict`. -/
def APCGrid.from_dict (data : Json) : Except PyErr APCGrid := do
  let kvs ← asObj data
  let ndRaw ← asArr (jGetD kvs "nd_criteria" (.arr []))
  let nd ← ndRaw.mapM Criterion.from_dict
  let niRaw ← asArr (jGetD kvs "ni_criteria" (.arr []))
  let ni ← niRaw.mapM Criterion.from_dict
  let naRaw ← asArr (jGetD kvs "na_criteria" (.arr []))
  let na ← naRaw.mapM Criterion.from_dict
  mkAPCGrid nd ni na

/-- `models.EvaluationSituation`. -/
structure EvaluationSituation where
  context : String := ""
  task : String := ""
  instructions : String := ""
  duration : String := ""
deriving Repr, DecidableEq

/-- `EvaluationSituation.__post_init__`: instructions and duration non-blank. -/
def mkEvaluationSituation (context task instructions duration : String) :
    Except PyErr EvaluationSituation :=
  if pyBlank instructions then .error (.valueError "Instructions field cannot be empty")
  else if pyBlank duration then .error (.valueError "Duration field cannot be empty")
  else .ok ⟨context, task, instructions, duration⟩

/-- `models.ScoringRubric`. -/
structure ScoringRubric where
  total_points : Int := 0
  nd_range : Int × Int := (0, 0)
  ni_range : Int × Int := (0, 0)
  na_range : Int × Int := (0, 0)
  criteria_points : List (String × Int) := []
deriving Repr, DecidableEq

/-- `ScoringRubric.__post_init__`: total in {20, 100}; every mapped
points value > 0 (first offending entry, in insertion order, names the
criterion). -/
def mkScoringRubric (total_points : Int) (nd_range ni_range na_range : Int × Int)
    (criteria_points : List (String × Int)) : Except PyErr ScoringRubric :=
  if total_points ≠ 20 ∧ total_points ≠ 100 then
    .error (.valueError "Total points must be either 20 or 100")
  else
    match criteria_points.find? (fun kv => kv.2 ≤ 0) with
    | some kv => .error (.valueError
        ("Criterion \x27" ++ kv.1 ++ "\x27 must have points > 0"))
    | none => .ok ⟨total_points, nd_range, ni_range, na_range, criteria_points⟩

/-- `ScoringRubric.from_dict` (note the `total_points` default of 0,
which can never satisfy `__post_init__`). -/
def ScoringRubric.from_dict (data : Json) : Except PyErr ScoringRubric := do
  let kvs ← asObj data
  let total_points ← asInt (jGetD kvs "total_points" (.num 0))
  let nd_range ← asIntPair (jGetD kvs "nd_range" (.arr [.num 0, .num 0]))
  let ni_range ← asIntPair (jGetD kvs "ni_range" (.arr [.num 0, .num 0]))
  let na_range ← asIntPair (jGetD kvs "na_range" (.arr [.num 0, .num 0]))
  let criteria_points ← asStrIntMap (jGetD kvs "criteria_points" (.obj []))
  mkScoringRubric total_points nd_range ni_range na_range criteria_points

/-- `models.AssessmentOutput`. -/
structure AssessmentOutput where
  input : CompetencyInput
  grid : APCGrid
  situation : EvaluationSituation
  rubric : ScoringRubric
  generated_at : String := ""
deriving Repr, DecidableEq

/-- `AssessmentOutput.__post_init__`: default the timestamp to the
current time (`now`); never fails. -/
def mkAssessmentOutput (now : String) (input : CompetencyInput) (grid : APCGrid)
    (situation : EvaluationSituation) (rubric : ScoringRubric)
    (generated_at : String := "") : AssessmentOutput :=
  ⟨input, grid, situation, rubric, if generated_at.data.isEmpty then now else generated_at⟩

/-- `models.ValidationResult`. -/
structure ValidationResult where
  is_valid : Bool := false
  alignment_score : String := ""
  observability_issues : List String := []
  coherence_issues : List String := []
  feedback : String := ""
  validated_at : String := ""
deriving Repr, DecidableEq

/-- `ValidationResult.__post_init__`: default the timestamp; a negative
result must carry non-blank feedback. -/
def mkValidationResult (now : String) (is_valid : Bool) (alignment_score : String)
    (observability_issues coherence_issues : List String) (feedback : String)
    (validated_at : String := "") : Except PyErr ValidationResult :=
  let validated_at' := if validated_at.data.isEmpty then now else validated_at
  if !is_valid && pyBlank feedback then
    .error (.valueError "Feedback must be provided when validation fails")
  else
    .ok ⟨is_valid, alignment_score, observability_issues, coherence_issues,
         feedback, validated_at'⟩

end SkillAssess

namespace SkillAssess

/-! ## Response extraction (`_parse_response` / `_parse_validation_response`)

Both agents share the same fence-stripping block; the surrounding
`try/except` differs only in message prefixes. -/

/-- The fence-stripping block: strip, drop a leading "```json" (7
characters), drop a leading "```" (3 characters), drop a trailing
"```", strip again. -/
def extractContent (content : PyStr) : PyStr :=
  let c₀ := pyStrip content
  let c₁ := if pyStartsWith "```json".data c₀ then c₀.drop 7 else c₀
  let c₂ := if pyStartsWith "```".data c₁ then c₁.drop 3 else c₁
  let c₃ := if pyEndsWith "```".data c₂ then c₂.take (c₂.length - 3) else c₂
  pyStrip c₃

/-- The grid-parsing step of `GeneratorAgent._parse_response`: build the
three criteria lists element-wise from the response arrays, then run the
`APCGrid` factory. -/
def parseGridGen (grid_data : List (String × Json)) : Except PyErr APCGrid := do
  let ndRaw ← asArr (jGetD grid_data "nd_criteria" (.arr []))
  let nd_criteria ← ndRaw.mapM Criterion.from_dict
  let niRaw ← asArr (jGetD grid_data "ni_criteria" (.arr []))
  let ni_criteria ← niRaw.mapM Criterion.from_dict
  let naRaw ← asArr (jGetD grid_data "na_criteria" (.arr []))
  let na_criteria ← naRaw.mapM Criterion.from_dict
  mkAPCGrid nd_criteria ni_criteria na_criteria

/-- The situation-parsing step of `GeneratorAgent._parse_response`
(the `duration` default is the input's `duree`). -/
def parseSituationGen (situation_data : List (String × Json))
    (input_data : CompetencyInput) : Except PyErr EvaluationSituation := do
  let context ← asStr (jGetD situation_data "context" (.str ""))
  let task ← asStr (jGetD situation_data "task" (.str ""))
  let instructions ← asStr (jGetD situation_data "instructions" (.str ""))
  let duration ← asStr (jGetD situation_data "duration" (.str input_data.duree))
  mkEvaluationSituation context task instructions duration

/-- The rubric-parsing step of `GeneratorAgent._parse_response` — note
the `total_points` default of 20 (contrast `ScoringRubric.from_dict`,
whose default is 0). -/
def parseRubricGen (rubric_data : List (String × Json)) : Except PyErr ScoringRubric := do
  let total_points ← asInt (jGetD rubric_data "total_points" (.num 20))
  let nd_range ← asIntPair (jGetD rubric_data "nd_range" (.arr [.num 0, .num 0]))
  let ni_range ← asIntPair (jGetD rubric_data "ni_range" (.arr [.num 0, .num 0]))
  let na_range ← asIntPair (jGetD rubric_data "na_range" (.arr [.num 0, .num 0]))
  let criteria_points ← asStrIntMap (jGetD rubric_data "criteria_points" (.obj []))
  mkScoringRubric total_points nd_range ni_range na_range criteria_points

/-- Body of the `try` block of `GeneratorAgent._parse_response`:
emptiness check (before any stripping), fence stripping, `json.loads`,
required top-level keys, then grid / situation / rubric construction and
assembly of the `AssessmentOutput`. -/
def parseResponseBody (api_response : PyStr) (input_data : CompetencyInput)
    (now : String) : Except PyErr AssessmentOutput :=
  if api_response.isEmpty then .error (.valueError "Empty response from API") else
  jsonLoads (extractContent api_response) >>= fun data =>
  asObj data >>= fun kvs =>
  if !jHasKey kvs "grid" then .error (.valueError "Missing \x27grid\x27 in response") else
  if !jHasKey kvs "situation" then
    .error (.valueError "Missing \x27situation\x27 in response") else
  if !jHasKey kvs "rubric" then
    .error (.valueError "Missing \x27rubric\x27 in response") else
  asObj (jGetD kvs "grid" .null) >>= fun grid_data =>
  parseGridGen grid_data >>= fun grid =>
  asObj (jGetD kvs "situation" .null) >>= fun situation_data =>
  parseSituationGen situation_data input_data >>= fun situation =>
  asObj (jGetD kvs "rubric" .null) >>= fun rubric_data =>
  parseRubricGen rubric_data >>= fun rubric =>
  .ok (mkAssessmentOutput now input_data grid situation rubric)

/-- `GeneratorAgent._parse_response`: run the body and rewrap failures
the way the `except` clauses do.  `json.loads` is the only source of a
`JSONDecodeError`, and it runs after fence stripping, so the `content`
excerpt in that clause is the extracted text (first 200 characters). -/
def parseResponse (api_response : PyStr) (input_data : CompetencyInput)
    (now : String) : Except PyErr AssessmentOutput :=
  match parseResponseBody api_response input_data now with
  | .ok a => .ok a
  | .error (.jsonDecodeError m) => .error (.exception
      ("Failed to parse JSON response: " ++ m ++ "\nContent: "
        ++ String.mk ((extractContent api_response).take 200)))
  | .error (.valueError m) => .error (.exception ("Invalid response format: " ++ m))
  | .error (.exception m) => .error (.exception ("Error parsing response: " ++ m))

/-- Body of the `try` block of `CriticAgent._parse_validation_response`. -/
def parseValidationResponseBody (api_response : PyStr) (now : String) :
    Except PyErr ValidationResult :=
  if api_response.isEmpty then
    .error (.valueError "Empty response from validation API") else
  jsonLoads (extractContent api_response) >>= fun data =>
  asObj data >>= fun kvs =>
  if !jHasKey kvs "is_valid" then
    .error (.valueError "Missing \x27is_valid\x27 in validation response") else
  asBool (jGetD kvs "is_valid" (.bool false)) >>= fun is_valid =>
  asStr (jGetD kvs "alignment_score" (.str "")) >>= fun alignment_score =>
  asStrList (jGetD kvs "observability_issues" (.arr [])) >>= fun observability_issues =>
  asStrList (jGetD kvs "coherence_issues" (.arr [])) >>= fun coherence_issues =>
  asStr (jGetD kvs "feedback" (.str "")) >>= fun feedback =>
  mkValidationResult now is_valid alignment_score observability_issues
    coherence_issues feedback

/-- `CriticAgent._parse_validation_response` with its `except` rewraps. -/
def parseValidationResponse (api_response : PyStr) (now : String) :
    Except PyErr ValidationResult :=
  match parseValidationResponseBody api_response now with
  | .ok v => .ok v
  | .error (.jsonDecodeError m) => .error (.exception
      ("Failed to parse validation JSON response: " ++ m ++ "\nContent: "
        ++ String.mk ((extractContent api_response).take 200)))
  | .error (.valueError m) => .error (.exception
      ("Invalid validation response format: " ++ m))
  | .error (.exception m) => .error (.exception
      ("Error parsing validation response: " ++ m))

/-! ## Retry loops (`generate_assessment` / `validate_assessment`)

The loops are observed through a trace recording how many times the
attempt body ran, the backoff sleeps performed (in order), and the final
outcome.  `outcome = none` can only happen when `max_retries = 0` (the
Python `for` body never runs and the method falls through, returning
`None`); both agents set `max_retries = 3`. -/

/-- Observable behaviour of one run of a retry loop. -/
structure RetryTrace (α : Type) where
  attempts : Nat
  sleeps : List Nat
  outcome : Option (Except PyErr α)
deriving Repr

/-- The `for attempt in range(max_retries)` loop of
`GeneratorAgent.generate_assessment`, from loop index `i`: on success
return at once; on failure with attempts remaining sleep
`initial_retry_delay * 2 ^ attempt` and continue; on the last attempt
raise the fatal wrapped exception. -/
def generateFrom (attempt : Nat → Except PyErr α)
    (max_retries initial_retry_delay : Nat) (i : Nat) : RetryTrace α :=
  if _h : i < max_retries then
    match attempt i with
    | .ok a => ⟨1, [], some (.ok a)⟩
    | .error e =>
      if i < max_retries - 1 then
        let rest := generateFrom attempt max_retries initial_retry_delay (i + 1)
        ⟨rest.attempts + 1, initial_retry_delay * 2 ^ i :: rest.sleeps, rest.outcome⟩
      else
        ⟨1, [], some (.error (.exception
          ("Failed to generate assessment after " ++ toString max_retries
            ++ " attempts: " ++ e.pyStr)))⟩
  else ⟨0, [], none⟩
termination_by max_retries - i

/-- The retry loop of `CriticAgent.validate_assessment`: identical
shape, but exhaustion degrades to a negative `ValidationResult` built by
the validating factory instead of raising. -/
def validateFrom (attempt : Nat → Except PyErr ValidationResult)
    (max_retries initial_retry_delay : Nat) (now : String) (i : Nat) :
    RetryTrace ValidationResult :=
  if _h : i < max_retries then
    match attempt i with
    | .ok v => ⟨1, [], some (.ok v)⟩
    | .error e =>
      if i < max_retries - 1 then
        let rest := validateFrom attempt max_retries initial_retry_delay now (i + 1)
        ⟨rest.attempts + 1, initial_retry_delay * 2 ^ i :: rest.sleeps, rest.outcome⟩
      else
        ⟨1, [], some (mkValidationResult now false "" [] []
          ("Validation could not be completed due to API error: " ++ e.pyStr))⟩
  else ⟨0, [], none⟩
termination_by max_retries - i

/-- One generation attempt: `_call_api` (abstracted as the outcome
function `call`) then `_parse_response`. -/
def genAttempt (call : Nat → Except PyErr PyStr) (input_data : CompetencyInput)
    (now : String) (i : Nat) : Except PyErr AssessmentOutput := do
  let response ← call i
  parseResponse response input_data now

/-- One validation attempt: `_call_api` then `_parse_validation_response`. -/
def critAttempt (call : Nat → Except PyErr PyStr) (now : String) (i : Nat) :
    Except PyErr ValidationResult := do
  let response ← call i
  parseValidationResponse response now

/-- `GeneratorAgent.generate_assessment` with the agent's
`max_retries = 3`, `initial_retry_delay = 1`. -/
def generate_assessment (call : Nat → Except PyErr PyStr)
    (input_data : CompetencyInput) (now : String) : RetryTrace AssessmentOutput :=
  generateFrom (genAttempt call input_data now) 3 1 0

/-- `CriticAgent.validate_assessment` with the agent's
`max_retries = 3`, `initial_retry_delay = 1`. -/
def validate_assessment (call : Nat → Except PyErr PyStr) (now : String) :
    RetryTrace ValidationResult :=
  validateFrom (critAttempt call now) 3 1 now 0

end SkillAssess

namespace SkillAssess

/-! ## Serialization (`to_dict` and `json.dumps(..., ensure_ascii=False, indent=2)`) -/

/-- `Criterion.to_dict`. -/
def Criterion.to_dict (c : Criterion) : Json :=
  .obj [("description", .str c.description),
        ("indicators", .arr (c.indicators.map Json.str)),
        ("points", .num c.points)]

/-- `APCGrid.to_dict`. -/
def APCGrid.to_dict (g : APCGrid) : Json :=
  .obj [("nd_criteria", .arr (g.nd_criteria.map Criterion.to_dict)),
        ("ni_criteria", .arr (g.ni_criteria.map Criterion.to_dict)),
        ("na_criteria", .arr (g.na_criteria.map Criterion.to_dict))]

/-- `CompetencyInput.to_dict`. -/
def CompetencyInput.to_dict (i : CompetencyInput) : Json :=
  .obj [("competency", .str i.competency), ("element", .str i.element),
        ("niveau", .str i.niveau), ("parcours", .str i.parcours),
        ("specialite", .str i.specialite), ("duree", .str i.duree)]

/-- `EvaluationSituation.to_dict`. -/
def EvaluationSituation.to_dict (s : EvaluationSituation) : Json :=
  .obj [("context", .str s.context), ("task", .str s.task),
        ("instructions", .str s.instructions), ("duration", .str s.duration)]

/-- `ScoringRubric.to_dict` (ranges serialized as two-element lists). -/
def ScoringRubric.to_dict (r : ScoringRubric) : Json :=
  .obj [("total_points", .num r.total_points),
        ("nd_range", .arr [.num r.nd_range.1, .num r.nd_range.2]),
        ("ni_range", .arr [.num r.ni_range.1, .num r.ni_range.2]),
        ("na_range", .arr [.num r.na_range.1, .num r.na_range.2]),
        ("criteria_points", .obj (r.criteria_points.map
          (fun kv => (kv.1, Json.num kv.2))))]

/-- `AssessmentOutput.to_dict`. -/
def AssessmentOutput.to_dict (a : AssessmentOutput) : Json :=
  .obj [("input", a.input.to_dict), ("grid", a.grid.to_dict),
        ("situation", a.situation.to_dict), ("rubric", a.rubric.to_dict),
        ("generated_at", .str a.generated_at)]

/-- Lower-case hex digit. -/
def hexDigitChar (n : Nat) : Char :=
  if n < 10 then Char.ofNat ('0'.toNat + n) else Char.ofNat ('a'.toNat + (n - 10))

/-- How `json.dumps` (with `ensure_ascii=False`) renders one character
inside a string literal: quote, backslash and ASCII control characters
are escaped, everything else passes through. -/
def jsonEscapeChar (c : Char) : List Char :=
  if c = '"' then ['\\', '"']
  else if c = '\\' then ['\\', '\\']
  else if c = '\n' then ['\\', 'n']
  else if c = '\t' then ['\\', 't']
  else if c = '\r' then ['\\', 'r']
  else if c = Char.ofNat 8 then ['\\', 'b']
  else if c = Char.ofNat 12 then ['\\', 'f']
  else if c.toNat < 32 then
    ['\\', 'u', '0', '0', hexDigitChar (c.toNat / 16), hexDigitChar (c.toNat % 16)]
  else [c]

/-- A JSON string literal as `json.dumps` prints it. -/
def dumpStrLit (s : String) : String :=
  "\"" ++ String.mk (List.flatten (s.data.map jsonEscapeChar)) ++ "\""

/-- `indent=2`: the indentation prefix at nesting depth `lvl`. -/
def indentStr (lvl : Nat) : String := String.mk (List.replicate (2 * lvl) ' ')

mutual

/-- `json.dumps(j, ensure_ascii=False, indent=2)`, at nesting depth
`lvl` (item separator ",", key separator ": ", as Python defaults them
when `indent` is given). -/
def dumpJson : Json → Nat → String
  | .null, _ => "null"
  | .bool true, _ => "true"
  | .bool false, _ => "false"
  | .num n, _ => toString n
  | .str s, _ => dumpStrLit s
  | .arr [], _ => "[]"
  | .arr (e :: es), lvl =>
      "[\n" ++ dumpItems (e :: es) (lvl + 1) ++ "\n" ++ indentStr lvl ++ "]"
  | .obj [], _ => "\x7b\x7d"
  | .obj (kv :: kvs), lvl =>
      "\x7b\n" ++ dumpMembers (kv :: kvs) (lvl + 1) ++ "\n" ++ indentStr lvl ++ "\x7d"

/-- The lines of a non-empty array body. -/
def dumpItems : List Json → Nat → String
  | [], _ => ""
  | [e], lvl => indentStr lvl ++ dumpJson e lvl
  | e :: e' :: es, lvl =>
      indentStr lvl ++ dumpJson e lvl ++ ",\n" ++ dumpItems (e' :: es) lvl

/-- The lines of a non-empty object body. -/
def dumpMembers : List (String × Json) → Nat → String
  | [], _ => ""
  | [(k, v)], lvl => indentStr lvl ++ dumpStrLit k ++ ": " ++ dumpJson v lvl
  | (k, v) :: kv :: kvs, lvl =>
      indentStr lvl ++ dumpStrLit k ++ ": " ++ dumpJson v lvl ++ ",\n"
        ++ dumpMembers (kv :: kvs) lvl

end

/-- `json.dumps(assessment.to_dict(), ensure_ascii=False, indent=2)` —
the serialized assessment embedded into the validation prompt. -/
def serializeAssessment (a : AssessmentOutput) : String :=
  dumpJson a.to_dict 0

/-- Everything of `CriticAgent._build_validation_prompt`'s output that
precedes the serialized assessment. -/
def validationPromptPrefix : String :=
  "Vous êtes un validateur de qualité pédagogique pour les évaluations par compétences (APC).\n\n"
  ++ "Votre tâche est d\x27analyser l\x27évaluation suivante et de valider sa qualité selon ces critères :\n\n"
  ++ "1. **Alignement** : Les critères d\x27évaluation sont-ils bien alignés avec la compétence visée ?\n"
  ++ "2. **Observabilité** : Tous les critères sont-ils observables et mesurables ?\n"
  ++ "3. **Cohérence** : La complexité de la tâche correspond-elle au niveau de compétence et au niveau éducatif ?\n\n"
  ++ "**Évaluation à valider** :\n```json\n"

/-- Everything of `CriticAgent._build_validation_prompt`'s output that
follows the serialized assessment. -/
def validationPromptSuffix : String :=
  "\n```\n\nAnalysez cette évaluation et fournissez votre validation au format JSON suivant :\n\n"
  ++ "\x7b\n  \"is_valid\": true/false,\n"
  ++ "  \"alignment_score\": \"good\" / \"acceptable\" / \"poor\",\n"
  ++ "  \"observability_issues\": [\n    \"Liste des problèmes d\x27observabilité identifiés\"\n  ],\n"
  ++ "  \"coherence_issues\": [\n    \"Liste des problèmes de cohérence identifiés\"\n  ],\n"
  ++ "  \"feedback\": \"Feedback détaillé et spécifique sur les problèmes identifiés ou confirmation de la qualité\"\n\x7d\n\n"
  ++ "**Soyez concis dans votre feedback.** Répondez UNIQUEMENT avec le JSON, sans texte supplémentaire."

/-- `CriticAgent._build_validation_prompt`: the full serialized
assessment is interpolated verbatim between the fixed prefix and
suffix. -/
def buildValidationPrompt (assessment : AssessmentOutput) : String :=
  validationPromptPrefix ++ serializeAssessment assessment ++ validationPromptSuffix

end SkillAssess

namespace SkillAssess

/-! ## Sample concrete values (used to instantiate the theorems) -/

/-- A valid sample criterion. -/
def sampleCriterion : Criterion := ⟨"Analyse le besoin", ["Indicateur 1"], 2⟩

/-- A valid sample competency input (the one the repository tests use). -/
def sampleInput : CompetencyInput :=
  ⟨"Développer une application web", "", "Licence 2", "Informatique",
   "Développement Web", "2 heures"⟩

/-- A valid sample evaluation situation. -/
def sampleSituation : EvaluationSituation :=
  ⟨"Contexte authentique", "Tâche complexe", "Instructions claires", "2 heures"⟩

/-- A valid sample rubric. -/
def sampleRubric : ScoringRubric :=
  ⟨20, (0, 6), (7, 13), (14, 20), [("Critère 1", 2), ("Critère 2", 3)]⟩

/-- A valid sample grid: three criteria per tier. -/
def sampleGrid : APCGrid :=
  ⟨[sampleCriterion, sampleCriterion, sampleCriterion],
   [sampleCriterion, sampleCriterion, sampleCriterion],
   [sampleCriterion, sampleCriterion, sampleCriterion]⟩

/-- A valid sample assessment. -/
def sampleAssessment : AssessmentOutput :=
  ⟨sampleInput, sampleGrid, sampleSituation, sampleRubric, "2026-01-01T00:00:00"⟩

/-- A parsed rubric mapping with no `total_points` key. -/
def sampleRubricDataNoTotal : List (String × Json) :=
  [("nd_range", .arr [.num 0, .num 6]),
   ("ni_range", .arr [.num 7, .num 13]),
   ("na_range", .arr [.num 14, .num 20]),
   ("criteria_points", .obj [("Critère 1", .num 2)])]

/-- The parsed ND tier of the sample response: 3 criteria. -/
def sampleNd : List Json :=
  [.obj [("description", .str "a")], .obj [("description", .str "b")],
   .obj [("description", .str "c")]]

/-- The parsed NI tier of the sample response: 3 criteria. -/
def sampleNi : List Json :=
  [.obj [("description", .str "d")], .obj [("description", .str "e")],
   .obj [("description", .str "f")]]

/-- The parsed NA tier of the sample response: 3 criteria. -/
def sampleNa : List Json :=
  [.obj [("description", .str "g")], .obj [("description", .str "h")],
   .obj [("description", .str "i")]]

/-- The parsed grid object of the sample response. -/
def sampleGridData : List (String × Json) :=
  [("nd_criteria", .arr sampleNd), ("ni_criteria", .arr sampleNi),
   ("na_criteria", .arr sampleNa)]

/-- The parsed top-level object of the sample response. -/
def sampleResponseData : List (String × Json) :=
  [("grid", .obj sampleGridData),
   ("situation", .obj [("instructions", .str "Faire"), ("duration", .str "2h")]),
   ("rubric", .obj [("total_points", .num 20),
                    ("criteria_points", .obj [("A", .num 2)])])]

/-- A well-formed raw model response with exactly 3 criteria per tier. -/
def sampleResponseStr : PyStr :=
  ("\x7b\"grid\": \x7b\"nd_criteria\": [\x7b\"description\": \"a\"\x7d, \x7b\"description\": \"b\"\x7d, \x7b\"description\": \"c\"\x7d], "
   ++ "\"ni_criteria\": [\x7b\"description\": \"d\"\x7d, \x7b\"description\": \"e\"\x7d, \x7b\"description\": \"f\"\x7d], "
   ++ "\"na_criteria\": [\x7b\"description\": \"g\"\x7d, \x7b\"description\": \"h\"\x7d, \x7b\"description\": \"i\"\x7d]\x7d, "
   ++ "\"situation\": \x7b\"instructions\": \"Faire\", \"duration\": \"2h\"\x7d, "
   ++ "\"rubric\": \x7b\"total_points\": 20, \"criteria_points\": \x7b\"A\": 2\x7d\x7d\x7d").data

/-- The assessment the generator builds from the sample response. -/
def sampleParsedAssessment : AssessmentOutput :=
  ⟨sampleInput,
   ⟨[⟨"a", [], 0⟩, ⟨"b", [], 0⟩, ⟨"c", [], 0⟩],
    [⟨"d", [], 0⟩, ⟨"e", [], 0⟩, ⟨"f", [], 0⟩],
    [⟨"g", [], 0⟩, ⟨"h", [], 0⟩, ⟨"i", [], 0⟩]⟩,
   ⟨"", "", "Faire", "2h"⟩,
   ⟨20, (0, 0), (0, 0), (0, 0), [("A", 2)]⟩, "NOW"⟩

/-! ## Helper lemmas -/

/-- Destructuring a successful `Except` bind. -/
theorem except_bind_ok {ε α β : Type} {x : Except ε α} {f : α → Except ε β} {b : β} :
    x >>= f = .ok b ↔ ∃ a, x = .ok a ∧ f a = .ok b := by
  cases x <;> simp [Bind.bind, Except.bind]

/-- A successful `Except` pure. -/
theorem except_pure_ok {ε α : Type} {x b : α} :
    (pure x : Except ε α) = .ok b ↔ x = b := by
  simp [pure, Except.pure]

/-- A successful `mapM` over `Except` preserves length. -/
theorem mapM_ok_length {ε α β : Type} {f : α → Except ε β} :
    ∀ {xs : List α} {ys : List β}, xs.mapM f = .ok ys → ys.length = xs.length := by
  intro xs
  induction xs with
  | nil =>
      intro ys h
      rw [List.mapM_nil, except_pure_ok] at h
      simp [← h]
  | cons a l ih =>
      intro ys h
      rw [List.mapM_cons] at h
      obtain ⟨y, _, h⟩ := except_bind_ok.mp h
      obtain ⟨ys', hys, h⟩ := except_bind_ok.mp h
      rw [except_pure_ok] at h
      simp [← h, ih hys]

/-- `stripR` is Mathlib's `rdropWhile`. -/
theorem stripR_eq_rdropWhile (s : PyStr) : stripR s = List.rdropWhile pyIsWs s := rfl

/-- `strip` returns the empty string iff everything was whitespace. -/
theorem pyStrip_eq_nil_iff {s : PyStr} : pyStrip s = [] ↔ ∀ c ∈ s, pyIsWs c = true := by
  unfold pyStrip stripL
  rw [stripR_eq_rdropWhile, List.rdropWhile_eq_nil_iff]
  constructor
  · intro h c hc
    have hsplit := List.takeWhile_append_dropWhile (p := pyIsWs) (l := s)
    rw [← hsplit] at hc
    rcases List.mem_append.mp hc with h1 | h2
    · exact List.mem_takeWhile_imp h1
    · exact h c h2
  · intro h c hc
    exact h c ((List.dropWhile_suffix (p := pyIsWs)).subset hc)

/-- A string with a non-whitespace character is not blank. -/
theorem pyBlank_eq_false_of_mem {s : String} {c : Char} (hc : pyIsWs c = false)
    (hmem : c ∈ s.data) : pyBlank s = false := by
  unfold pyBlank
  cases h : pyStrip s.data with
  | nil =>
      have := pyStrip_eq_nil_iff.mp h c hmem
      rw [hc] at this
      cases this
  | cons a l => rfl

/-- Stripping absorbs one leading whitespace character. -/
theorem pyStrip_cons_of_ws {c : Char} (hc : pyIsWs c = true) (s : PyStr) :
    pyStrip (c :: s) = pyStrip s := by
  unfold pyStrip stripL
  rw [List.dropWhile_cons, hc]
  simp

/-- Stripping absorbs one trailing whitespace character. -/
theorem pyStrip_concat_of_ws {c : Char} (hc : pyIsWs c = true) (s : PyStr) :
    pyStrip (s ++ [c]) = pyStrip s := by
  unfold pyStrip
  rw [stripR_eq_rdropWhile, stripR_eq_rdropWhile]
  unfold stripL
  rw [List.dropWhile_append]
  by_cases h : (s.dropWhile pyIsWs).isEmpty
  · have hnil : s.dropWhile pyIsWs = [] := by simpa using h
    simp [h, hnil, List.dropWhile_cons, hc, List.rdropWhile_nil]
  · simp only [h, if_neg, Bool.false_eq_true, not_false_iff, ite_false]
    exact List.rdropWhile_concat_pos _ _ _ hc

/-- If a list survives `dropWhile` unchanged, so does its
`rdropWhile`. -/
theorem dropWhile_rdropWhile_of_self {p : Char → Bool} {u : PyStr}
    (hu : u.dropWhile p = u) : (u.rdropWhile p).dropWhile p = u.rdropWhile p := by
  obtain ⟨r, hr⟩ := List.rdropWhile_prefix (p := p) (l := u)
  cases hv : u.rdropWhile p with
  | nil => simp
  | cons a v =>
    have hu' : u = a :: (v ++ r) := by rw [← hr, hv]; simp
    have hpa : p a = false := by
      by_contra h'
      rw [Bool.not_eq_false] at h'
      rw [hu', List.dropWhile_cons, h'] at hu
      simp only [if_true] at hu
      have hle := (List.dropWhile_sublist (l := v ++ r) (p := p)).length_le
      rw [hu] at hle
      simp at hle
    rw [List.dropWhile_cons, hpa]
    simp

/-- `strip` is idempotent. -/
theorem pyStrip_idem (s : PyStr) : pyStrip (pyStrip s) = pyStrip s := by
  have hL : stripL (pyStrip s) = pyStrip s := by
    unfold pyStrip stripL
    rw [stripR_eq_rdropWhile]
    exact dropWhile_rdropWhile_of_self (List.dropWhile_idempotent _ _)
  unfold pyStrip at hL ⊢
  rw [hL]
  rw [stripR_eq_rdropWhile, stripR_eq_rdropWhile, List.rdropWhile_idempotent]

/-- `strip` of a list whose first and last characters are not
whitespace is the list itself. -/
theorem pyStrip_eq_self_of (s : PyStr) (h1 : stripL s = s) (h2 : stripR s = s) :
    pyStrip s = s := by
  unfold pyStrip
  rw [h1, h2]

end SkillAssess

namespace SkillAssess

/-- Successful `mkAPCGrid`: the grid is exactly the given lists and each
has at least 3 entries. -/
theorem mkAPCGrid_ok {nd ni na : List Criterion} {g : APCGrid}
    (h : mkAPCGrid nd ni na = .ok g) :
    g = ⟨nd, ni, na⟩ ∧ 3 ≤ nd.length ∧ 3 ≤ ni.length ∧ 3 ≤ na.length := by
  unfold mkAPCGrid at h
  by_cases h1 : nd.length < 3
  · rw [if_pos h1] at h; exact Except.noConfusion h
  rw [if_neg h1] at h
  by_cases h2 : ni.length < 3
  · rw [if_pos h2] at h; exact Except.noConfusion h
  rw [if_neg h2] at h
  by_cases h3 : na.length < 3
  · rw [if_pos h3] at h; exact Except.noConfusion h
  rw [if_neg h3] at h
  exact ⟨(Except.ok.inj h).symm, by omega, by omega, by omega⟩

/-- Successful `mkScoringRubric`: the rubric is exactly the given data,
the total is 20 or 100, and every mapped points value is positive. -/
theorem mkScoringRubric_ok {tp : Int} {r₁ r₂ r₃ : Int × Int}
    {cps : List (String × Int)} {r : ScoringRubric}
    (h : mkScoringRubric tp r₁ r₂ r₃ cps = .ok r) :
    r = ⟨tp, r₁, r₂, r₃, cps⟩ ∧ (tp = 20 ∨ tp = 100) ∧ ∀ kv ∈ cps, 0 < kv.2 := by
  unfold mkScoringRubric at h
  by_cases h1 : tp ≠ 20 ∧ tp ≠ 100
  · rw [if_pos h1] at h; exact Except.noConfusion h
  rw [if_neg h1] at h
  push_neg at h1
  rcases hf : cps.find? (fun kv => kv.2 ≤ 0) with _ | kv₀
  · rw [hf] at h
    refine ⟨(Except.ok.inj h).symm, ?_, ?_⟩
    · by_cases h20 : tp = 20
      · exact Or.inl h20
      · exact Or.inr (h1 h20)
    · intro kv hkv
      have := List.find?_eq_none.mp hf kv hkv
      simpa using this
  · rw [hf] at h
    exact Except.noConfusion h

end SkillAssess

namespace SkillAssess

/-- C5: constructing an `APCGrid` fails with a `ValueError` whenever any
tier has fewer than 3 criteria, the invariant holds on every successful
direct construction, and deserialization (`from_dict`) can likewise only
succeed with at least 3 criteria per tier — a grid with only 2 criteria
in a tier is never observable. -/
theorem apcGrid_requires_three_per_tier :
    (∀ nd ni na : List Criterion, nd.length < 3 ∨ ni.length < 3 ∨ na.length < 3 →
      ∃ m, mkAPCGrid nd ni na = .error (.valueError m)) ∧
    (∀ (nd ni na : List Criterion) (g : APCGrid), mkAPCGrid nd ni na = .ok g →
      3 ≤ g.nd_criteria.length ∧ 3 ≤ g.ni_criteria.length ∧ 3 ≤ g.na_criteria.length) ∧
    (∀ (d : Json) (g : APCGrid), APCGrid.from_dict d = .ok g →
      3 ≤ g.nd_criteria.length ∧ 3 ≤ g.ni_criteria.length ∧ 3 ≤ g.na_criteria.length) := by
  refine ⟨?_, ?_, ?_⟩
  · intro nd ni na hlt
    unfold mkAPCGrid
    by_cases h1 : nd.length < 3
    · exact ⟨_, by rw [if_pos h1]⟩
    · by_cases h2 : ni.length < 3
      · exact ⟨_, by rw [if_neg h1, if_pos h2]⟩
      · have h3 : na.length < 3 := by omega
        exact ⟨_, by rw [if_neg h1, if_neg h2, if_pos h3]⟩
  · intro nd ni na g h
    obtain ⟨hg, h1, h2, h3⟩ := mkAPCGrid_ok h
    subst hg
    exact ⟨h1, h2, h3⟩
  · intro d g h
    unfold APCGrid.from_dict at h
    obtain ⟨kvs, _, h⟩ := except_bind_ok.mp h
    obtain ⟨ndRaw, _, h⟩ := except_bind_ok.mp h
    obtain ⟨nd, _, h⟩ := except_bind_ok.mp h
    obtain ⟨niRaw, _, h⟩ := except_bind_ok.mp h
    obtain ⟨ni, _, h⟩ := except_bind_ok.mp h
    obtain ⟨naRaw, _, h⟩ := except_bind_ok.mp h
    obtain ⟨na, _, h⟩ := except_bind_ok.mp h
    obtain ⟨hg, h1, h2, h3⟩ := mkAPCGrid_ok h
    subst hg
    exact ⟨h1, h2, h3⟩

/-- Witness for C5: a tier with only 2 criteria is rejected, and the
sample 3/3/3 grid construction satisfies the invariant. -/
theorem apcGrid_requires_three_per_tier_witness :
    (∃ m, mkAPCGrid [sampleCriterion, sampleCriterion]
      [sampleCriterion, sampleCriterion, sampleCriterion]
      [sampleCriterion, sampleCriterion, sampleCriterion] = .error (.valueError m)) ∧
    (3 ≤ sampleGrid.nd_criteria.length ∧ 3 ≤ sampleGrid.ni_criteria.length ∧
      3 ≤ sampleGrid.na_criteria.length) := by
  refine ⟨?_, ?_⟩
  · exact apcGrid_requires_three_per_tier.1 _ _ _ (by decide)
  · exact apcGrid_requires_three_per_tier.2.1
      [sampleCriterion, sampleCriterion, sampleCriterion]
      [sampleCriterion, sampleCriterion, sampleCriterion]
      [sampleCriterion, sampleCriterion, sampleCriterion] sampleGrid (by rfl)

/-- C6: constructing a `ScoringRubric` fails whenever `total_points` is
not 20 or 100 (15 in particular fails at once, before the per-criterion
check), fails whenever a mapped points value is ≤ 0, and every
observable rubric satisfies both rules. -/
theorem scoringRubric_invariants :
    (∀ r₁ r₂ r₃ cps, mkScoringRubric 15 r₁ r₂ r₃ cps =
        .error (.valueError "Total points must be either 20 or 100")) ∧
    (∀ tp r₁ r₂ r₃ cps, tp ≠ 20 → tp ≠ 100 →
      mkScoringRubric tp r₁ r₂ r₃ cps =
        .error (.valueError "Total points must be either 20 or 100")) ∧
    (∀ tp r₁ r₂ r₃ cps k v, (k, v) ∈ cps → v ≤ 0 →
      ∀ r, mkScoringRubric tp r₁ r₂ r₃ cps ≠ .ok r) ∧
    (∀ tp r₁ r₂ r₃ cps r, mkScoringRubric tp r₁ r₂ r₃ cps = .ok r →
      (r.total_points = 20 ∨ r.total_points = 100) ∧
      ∀ kv ∈ r.criteria_points, 0 < kv.2) := by
  refine ⟨?_, ?_, ?_, ?_⟩
  · intro r₁ r₂ r₃ cps
    unfold mkScoringRubric
    rw [if_pos (by decide)]
  · intro tp r₁ r₂ r₃ cps h20 h100
    unfold mkScoringRubric
    rw [if_pos ⟨h20, h100⟩]
  · intro tp r₁ r₂ r₃ cps k v hmem hv r hok
    obtain ⟨_, _, hpos⟩ := mkScoringRubric_ok hok
    have := hpos (k, v) hmem
    simp at this
    omega
  · intro tp r₁ r₂ r₃ cps r h
    obtain ⟨hr, htp, hpos⟩ := mkScoringRubric_ok h
    subst hr
    exact ⟨htp, hpos⟩

/-- Witness for C6: `total_points = 15` and `total_points = 7` are
rejected; a zero-point criterion is rejected; the sample rubric
satisfies the invariant. -/
theorem scoringRubric_invariants_witness :
    mkScoringRubric 15 (0, 6) (7, 13) (14, 20) [("Critère 1", 2)] =
      .error (.valueError "Total points must be either 20 or 100") ∧
    mkScoringRubric 7 (0, 0) (0, 0) (0, 0) [] =
      .error (.valueError "Total points must be either 20 or 100") ∧
    mkScoringRubric 20 (0, 0) (0, 0) (0, 0) [("A", 0)] ≠
      .ok ⟨20, (0, 0), (0, 0), (0, 0), [("A", 0)]⟩ ∧
    ((sampleRubric.total_points = 20 ∨ sampleRubric.total_points = 100) ∧
      ∀ kv ∈ sampleRubric.criteria_points, 0 < kv.2) := by
  refine ⟨?_, ?_, ?_, ?_⟩
  · exact scoringRubric_invariants.1 _ _ _ _
  · exact scoringRubric_invariants.2.1 7 _ _ _ _ (by decide) (by decide)
  · exact scoringRubric_invariants.2.2.1 20 _ _ _ _ "A" 0 (by decide) (by decide) _
  · exact scoringRubric_invariants.2.2.2 20 (0, 6) (7, 13) (14, 20)
      [("Critère 1", 2), ("Critère 2", 3)] sampleRubric (by rfl)

end SkillAssess

namespace SkillAssess

/-! ## Retry-loop step lemmas -/

/-- `generateFrom` when the loop is exhausted (index past the range). -/
theorem generateFrom_past {α : Type} {attempt : Nat → Except PyErr α}
    {max_retries initial_retry_delay i : Nat} (hi : ¬ i < max_retries) :
    generateFrom attempt max_retries initial_retry_delay i = ⟨0, [], none⟩ := by
  unfold generateFrom
  rw [dif_neg hi]

/-- `generateFrom` on a successful attempt. -/
theorem generateFrom_ok {α : Type} {attempt : Nat → Except PyErr α}
    {max_retries initial_retry_delay i : Nat} {a : α}
    (hi : i < max_retries) (ha : attempt i = .ok a) :
    generateFrom attempt max_retries initial_retry_delay i = ⟨1, [], some (.ok a)⟩ := by
  unfold generateFrom
  rw [dif_pos hi, ha]

/-- `generateFrom` on a failed attempt with attempts remaining: sleep
`initial * 2 ^ i` and continue at `i + 1`. -/
theorem generateFrom_err_cont {α : Type} {attempt : Nat → Except PyErr α}
    {max_retries initial_retry_delay i : Nat} {e : PyErr}
    (hlast : i < max_retries - 1) (ha : attempt i = .error e) :
    generateFrom attempt max_retries initial_retry_delay i =
      ⟨(generateFrom attempt max_retries initial_retry_delay (i + 1)).attempts + 1,
       initial_retry_delay * 2 ^ i ::
         (generateFrom attempt max_retries initial_retry_delay (i + 1)).sleeps,
       (generateFrom attempt max_retries initial_retry_delay (i + 1)).outcome⟩ := by
  have hi : i < max_retries := by omega
  conv_lhs => rw [generateFrom]
  rw [dif_pos hi, ha]
  simp [if_pos hlast]

/-- `generateFrom` on a failed final attempt: the fatal exception. -/
theorem generateFrom_err_last {α : Type} {attempt : Nat → Except PyErr α}
    {max_retries initial_retry_delay i : Nat} {e : PyErr}
    (hi : i < max_retries) (hlast : ¬ i < max_retries - 1) (ha : attempt i = .error e) :
    generateFrom attempt max_retries initial_retry_delay i =
      ⟨1, [], some (.error (.exception
        ("Failed to generate assessment after " ++ toString max_retries
          ++ " attempts: " ++ e.pyStr)))⟩ := by
  unfold generateFrom
  rw [dif_pos hi, ha]
  simp [if_neg hlast]

/-- `validateFrom` when the loop is exhausted. -/
theorem validateFrom_past {attempt : Nat → Except PyErr ValidationResult}
    {max_retries initial_retry_delay : Nat} {now : String} {i : Nat}
    (hi : ¬ i < max_retries) :
    validateFrom attempt max_retries initial_retry_delay now i = ⟨0, [], none⟩ := by
  unfold validateFrom
  rw [dif_neg hi]

/-- `validateFrom` on a successful attempt. -/
theorem validateFrom_ok {attempt : Nat → Except PyErr ValidationResult}
    {max_retries initial_retry_delay : Nat} {now : String} {i : Nat}
    {v : ValidationResult} (hi : i < max_retries) (ha : attempt i = .ok v) :
    validateFrom attempt max_retries initial_retry_delay now i =
      ⟨1, [], some (.ok v)⟩ := by
  unfold validateFrom
  rw [dif_pos hi, ha]

/-- `validateFrom` on a failed attempt with attempts remaining. -/
theorem validateFrom_err_cont {attempt : Nat → Except PyErr ValidationResult}
    {max_retries initial_retry_delay : Nat} {now : String} {i : Nat} {e : PyErr}
    (hlast : i < max_retries - 1) (ha : attempt i = .error e) :
    validateFrom attempt max_retries initial_retry_delay now i =
      ⟨(validateFrom attempt max_retries initial_retry_delay now (i + 1)).attempts + 1,
       initial_retry_delay * 2 ^ i ::
         (validateFrom attempt max_retries initial_retry_delay now (i + 1)).sleeps,
       (validateFrom attempt max_retries initial_retry_delay now (i + 1)).outcome⟩ := by
  have hi : i < max_retries := by omega
  conv_lhs => rw [validateFrom]
  rw [dif_pos hi, ha]
  simp [if_pos hlast]

/-- `validateFrom` on a failed final attempt: degrade to the factory's
negative `ValidationResult`. -/
theorem validateFrom_err_last {attempt : Nat → Except PyErr ValidationResult}
    {max_retries initial_retry_delay : Nat} {now : String} {i : Nat} {e : PyErr}
    (hi : i < max_retries) (hlast : ¬ i < max_retries - 1) (ha : attempt i = .error e) :
    validateFrom attempt max_retries initial_retry_delay now i =
      ⟨1, [], some (mkValidationResult now false "" [] []
        ("Validation could not be completed due to API error: " ++ e.pyStr))⟩ := by
  unfold validateFrom
  rw [dif_pos hi, ha]
  simp [if_neg hlast]

end SkillAssess

namespace SkillAssess

/-- Trace invariant of the generator's retry loop, from any start
index: at most `max - i` attempts, and the `k`-th sleep (0-indexed)
is `initial * 2 ^ (i + k)`. -/
theorem generateFrom_trace_inv {α : Type} (attempt : Nat → Except PyErr α)
    (max_retries initial_retry_delay : Nat) :
    ∀ i, (generateFrom attempt max_retries initial_retry_delay i).attempts
        ≤ max_retries - i ∧
      ∀ k d, (generateFrom attempt max_retries initial_retry_delay i).sleeps[k]?
          = some d → d = initial_retry_delay * 2 ^ (i + k) := by
  have key : ∀ n i, max_retries - i ≤ n →
      (generateFrom attempt max_retries initial_retry_delay i).attempts
        ≤ max_retries - i ∧
      ∀ k d, (generateFrom attempt max_retries initial_retry_delay i).sleeps[k]?
          = some d → d = initial_retry_delay * 2 ^ (i + k) := by
    intro n
    induction n with
    | zero =>
        intro i hle
        have hi : ¬ i < max_retries := by omega
        rw [generateFrom_past hi]
        simp
    | succ n ih =>
        intro i hle
        by_cases hi : i < max_retries
        · cases ha : attempt i with
          | ok a =>
              rw [generateFrom_ok hi ha]
              refine ⟨by simp; omega, ?_⟩
              intro k d hk
              simp at hk
          | error e =>
              by_cases hlast : i < max_retries - 1
              · rw [generateFrom_err_cont hlast ha]
                obtain ⟨iha, ihs⟩ := ih (i + 1) (by omega)
                refine ⟨by simp; omega, ?_⟩
                intro k d hk
                cases k with
                | zero =>
                    simp at hk
                    simp [← hk]
                | succ k' =>
                    simp only [List.getElem?_cons_succ] at hk
                    have hd := ihs k' d hk
                    have he : i + 1 + k' = i + (k' + 1) := by omega
                    rw [hd, he]
              · rw [generateFrom_err_last hi hlast ha]
                refine ⟨by simp; omega, ?_⟩
                intro k d hk
                simp at hk
        · rw [generateFrom_past hi]
          simp
  intro i
  exact key (max_retries - i) i (le_refl _)

/-- Trace invariant of the critic's retry loop (same recursion shape). -/
theorem validateFrom_trace_inv (attempt : Nat → Except PyErr ValidationResult)
    (max_retries initial_retry_delay : Nat) (now : String) :
    ∀ i, (validateFrom attempt max_retries initial_retry_delay now i).attempts
        ≤ max_retries - i ∧
      ∀ k d, (validateFrom attempt max_retries initial_retry_delay now i).sleeps[k]?
          = some d → d = initial_retry_delay * 2 ^ (i + k) := by
  have key : ∀ n i, max_retries - i ≤ n →
      (validateFrom attempt max_retries initial_retry_delay now i).attempts
        ≤ max_retries - i ∧
      ∀ k d, (validateFrom attempt max_retries initial_retry_delay now i).sleeps[k]?
          = some d → d = initial_retry_delay * 2 ^ (i + k) := by
    intro n
    induction n with
    | zero =>
        intro i hle
        have hi : ¬ i < max_retries := by omega
        rw [validateFrom_past hi]
        simp
    | succ n ih =>
        intro i hle
        by_cases hi : i < max_retries
        · cases ha : attempt i with
          | ok v =>
              rw [validateFrom_ok hi ha]
              refine ⟨by simp; omega, ?_⟩
              intro k d hk
              simp at hk
          | error e =>
              by_cases hlast : i < max_retries - 1
              · rw [validateFrom_err_cont hlast ha]
                obtain ⟨iha, ihs⟩ := ih (i + 1) (by omega)
                refine ⟨by simp; omega, ?_⟩
                intro k d hk
                cases k with
                | zero =>
                    simp at hk
                    simp [← hk]
                | succ k' =>
                    simp only [List.getElem?_cons_succ] at hk
                    have hd := ihs k' d hk
                    have he : i + 1 + k' = i + (k' + 1) := by omega
                    rw [hd, he]
              · rw [validateFrom_err_last hi hlast ha]
                refine ⟨by simp; omega, ?_⟩
                intro k d hk
                simp at hk
        · rw [validateFrom_past hi]
          simp
  intro i
  exact key (max_retries - i) i (le_refl _)

/-- C2: in both the generation and the validation retry loop, the
attempt body runs at most `max_retries` times, and the wait recorded
after the `i`-th failed attempt (0-indexed) is
`initial_backoff * 2 ^ i`. -/
theorem retry_bounded_with_exponential_backoff :
    (∀ (α : Type) (attempt : Nat → Except PyErr α) (max_retries initial_retry_delay : Nat),
      (generateFrom attempt max_retries initial_retry_delay 0).attempts ≤ max_retries ∧
      ∀ i d, (generateFrom attempt max_retries initial_retry_delay 0).sleeps[i]?
          = some d → d = initial_retry_delay * 2 ^ i) ∧
    (∀ (attempt : Nat → Except PyErr ValidationResult)
        (max_retries initial_retry_delay : Nat) (now : String),
      (validateFrom attempt max_retries initial_retry_delay now 0).attempts ≤ max_retries ∧
      ∀ i d, (validateFrom attempt max_retries initial_retry_delay now 0).sleeps[i]?
          = some d → d = initial_retry_delay * 2 ^ i) := by
  constructor
  · intro α attempt max_retries initial_retry_delay
    obtain ⟨h1, h2⟩ := generateFrom_trace_inv attempt max_retries initial_retry_delay 0
    refine ⟨by simpa using h1, ?_⟩
    intro i d h
    simpa using h2 i d h
  · intro attempt max_retries initial_retry_delay now
    obtain ⟨h1, h2⟩ := validateFrom_trace_inv attempt max_retries initial_retry_delay now 0
    refine ⟨by simpa using h1, ?_⟩
    intro i d h
    simpa using h2 i d h

/-- Witness for C2: with every attempt failing, both loops at
`max_retries = 3`, `initial_backoff = 1` make 3 attempts and sleep
1 = 1·2⁰ then 2 = 1·2¹. -/
theorem retry_bounded_with_exponential_backoff_witness :
    ((generateFrom (fun _ => (.error (.exception "boom") : Except PyErr Nat)) 3 1 0).attempts ≤ 3 ∧
      (1 : Nat) = 1 * 2 ^ 0 ∧ (2 : Nat) = 1 * 2 ^ 1) ∧
    ((validateFrom (fun _ => .error (.exception "boom")) 3 1 "NOW" 0).attempts ≤ 3 ∧
      (1 : Nat) = 1 * 2 ^ 0 ∧ (2 : Nat) = 1 * 2 ^ 1) := by
  have hgs : (generateFrom (fun _ => (.error (.exception "boom") : Except PyErr Nat))
      3 1 0).sleeps = [1, 2] := by
    rw [generateFrom_err_cont (by omega) rfl, generateFrom_err_cont (by omega) rfl,
        generateFrom_err_last (by omega) (by omega) rfl]
    norm_num
  have hvs : (validateFrom (fun _ => .error (.exception "boom")) 3 1 "NOW" 0).sleeps
      = [1, 2] := by
    rw [validateFrom_err_cont (by omega) rfl, validateFrom_err_cont (by omega) rfl,
        validateFrom_err_last (by omega) (by omega) rfl]
    norm_num
  have hg := retry_bounded_with_exponential_backoff.1 Nat
    (fun _ => .error (.exception "boom")) 3 1
  have hv := retry_bounded_with_exponential_backoff.2
    (fun _ => .error (.exception "boom")) 3 1 "NOW"
  exact ⟨⟨hg.1, hg.2 0 1 (by rw [hgs]; rfl), hg.2 1 2 (by rw [hgs]; rfl)⟩,
         ⟨hv.1, hv.2 0 1 (by rw [hvs]; rfl), hv.2 1 2 (by rw [hvs]; rfl)⟩⟩

end SkillAssess

namespace SkillAssess

/-- C4: when all three generation attempts fail, `generate_assessment`
raises the fatal exception naming the attempt count and the last
underlying cause, and never returns an `AssessmentOutput`. -/
theorem generation_exhaustion_fatal (call : Nat → Except PyErr PyStr)
    (input_data : CompetencyInput) (now : String) (err : Nat → PyErr)
    (hfail : ∀ i, i < 3 → genAttempt call input_data now i = .error (err i)) :
    (generate_assessment call input_data now).outcome =
      some (.error (.exception
        ("Failed to generate assessment after 3 attempts: " ++ (err 2).pyStr))) ∧
    ∀ a, (generate_assessment call input_data now).outcome ≠ some (.ok a) := by
  have h0 := hfail 0 (by omega)
  have h1 := hfail 1 (by omega)
  have h2 := hfail 2 (by omega)
  have htrace : (generate_assessment call input_data now).outcome =
      some (.error (.exception
        ("Failed to generate assessment after 3 attempts: " ++ (err 2).pyStr))) := by
    unfold generate_assessment
    rw [generateFrom_err_cont (by omega) h0, generateFrom_err_cont (by omega) h1,
        generateFrom_err_last (by omega) (by omega) h2]
    rfl
  exact ⟨htrace, by intro a h; rw [htrace] at h; simp at h⟩

/-- Witness for C4: a concrete always-failing call function. -/
theorem generation_exhaustion_fatal_witness :
    (generate_assessment (fun _ => .error (.exception "API request failed: boom"))
        sampleInput "NOW").outcome =
      some (.error (.exception
        ("Failed to generate assessment after 3 attempts: API request failed: boom"))) := by
  have h := generation_exhaustion_fatal
    (fun _ => .error (.exception "API request failed: boom")) sampleInput "NOW"
    (fun _ => .exception "API request failed: boom")
    (by intro i _; rfl)
  exact h.1

/-- C3: when all three validation attempts fail, `validate_assessment`
does not raise: it returns a successfully constructed
`ValidationResult` with `is_valid = false`, whose feedback is the
non-blank "could not be completed" message carrying the last cause. -/
theorem validation_exhaustion_degrades (call : Nat → Except PyErr PyStr)
    (now : String) (err : Nat → PyErr)
    (hfail : ∀ i, i < 3 → critAttempt call now i = .error (err i)) :
    (validate_assessment call now).outcome =
      some (.ok ⟨false, "", [], [],
        "Validation could not be completed due to API error: " ++ (err 2).pyStr, now⟩) ∧
    pyBlank ("Validation could not be completed due to API error: "
      ++ (err 2).pyStr) = false := by
  have h0 := hfail 0 (by omega)
  have h1 := hfail 1 (by omega)
  have h2 := hfail 2 (by omega)
  have hblank : pyBlank ("Validation could not be completed due to API error: "
      ++ (err 2).pyStr) = false := by
    refine pyBlank_eq_false_of_mem (c := 'V') (by decide) ?_
    rw [String.data_append]
    refine List.mem_append.mpr (Or.inl ?_)
    decide
  refine ⟨?_, hblank⟩
  unfold validate_assessment
  rw [validateFrom_err_cont (by omega) h0, validateFrom_err_cont (by omega) h1,
      validateFrom_err_last (by omega) (by omega) h2]
  simp only []
  unfold mkValidationResult
  rw [hblank]
  rfl

/-- Witness for C3: a concrete always-failing validation call. -/
theorem validation_exhaustion_degrades_witness :
    (validate_assessment (fun _ => .error (.exception "Validation API request failed: net"))
        "NOW").outcome =
      some (.ok ⟨false, "", [],  [],
        "Validation could not be completed due to API error: Validation API request failed: net",
        "NOW"⟩) ∧
    pyBlank "Validation could not be completed due to API error: Validation API request failed: net"
      = false := by
  have h := validation_exhaustion_degrades
    (fun _ => .error (.exception "Validation API request failed: net")) "NOW"
    (fun _ => .exception "Validation API request failed: net")
    (by intro i _; rfl)
  exact h

/-- C10: a generation-response rubric object lacking `total_points` is
not rejected by the generator — any successful parse carries the silent
default 20 — whereas `ScoringRubric.from_dict` on the same mapping
defaults the total to 0 and can never succeed. -/
theorem rubric_total_points_default (rd : List (String × Json))
    (hmiss : jLookup rd "total_points" = none) :
    (∀ r, parseRubricGen rd = .ok r → r.total_points = 20) ∧
    (∀ r, ScoringRubric.from_dict (.obj rd) ≠ .ok r) := by
  have hget20 : jGetD rd "total_points" (.num 20) = .num 20 := by
    unfold jGetD
    rw [hmiss]
    rfl
  have hget0 : jGetD rd "total_points" (.num 0) = .num 0 := by
    unfold jGetD
    rw [hmiss]
    rfl
  constructor
  · intro r h
    unfold parseRubricGen at h
    obtain ⟨tp, htp, h⟩ := except_bind_ok.mp h
    rw [hget20] at htp
    have htp' : tp = 20 := by
      have : (.ok (20 : Int) : Except PyErr Int) = .ok tp := by
        rw [← htp]; rfl
      exact (Except.ok.inj this).symm
    subst htp'
    obtain ⟨r₁, _, h⟩ := except_bind_ok.mp h
    obtain ⟨r₂, _, h⟩ := except_bind_ok.mp h
    obtain ⟨r₃, _, h⟩ := except_bind_ok.mp h
    obtain ⟨cps, _, h⟩ := except_bind_ok.mp h
    obtain ⟨hr, _, _⟩ := mkScoringRubric_ok h
    rw [hr]
  · intro r h
    unfold ScoringRubric.from_dict at h
    obtain ⟨kvs, hkvs, h⟩ := except_bind_ok.mp h
    simp only [asObj] at hkvs
    injection hkvs with hkvs'
    subst hkvs'
    obtain ⟨tp, htp, h⟩ := except_bind_ok.mp h
    rw [hget0] at htp
    simp only [asInt] at htp
    injection htp with htp'
    subst htp'
    obtain ⟨r₁, _, h⟩ := except_bind_ok.mp h
    obtain ⟨r₂, _, h⟩ := except_bind_ok.mp h
    obtain ⟨r₃, _, h⟩ := except_bind_ok.mp h
    obtain ⟨cps, _, h⟩ := except_bind_ok.mp h
    obtain ⟨_, htp20, _⟩ := mkScoringRubric_ok h
    rcases htp20 with h' | h' <;> exact absurd h' (by decide)

/-- Witness for C10: the sample rubric mapping without `total_points`
parses on the generator path to a rubric with total 20, and fails on
the `from_dict` path. -/
theorem rubric_total_points_default_witness :
    jLookup sampleRubricDataNoTotal "total_points" = none ∧
    parseRubricGen sampleRubricDataNoTotal =
      .ok ⟨20, (0, 6), (7, 13), (14, 20), [("Critère 1", 2)]⟩ ∧
    (⟨20, (0, 6), (7, 13), (14, 20), [("Critère 1", 2)]⟩ : ScoringRubric).total_points
      = 20 ∧
    ScoringRubric.from_dict (.obj sampleRubricDataNoTotal) ≠
      .ok ⟨20, (0, 6), (7, 13), (14, 20), [("Critère 1", 2)]⟩ := by
  refine ⟨rfl, rfl, ?_, ?_⟩
  · exact (rubric_total_points_default sampleRubricDataNoTotal rfl).1 _ rfl
  · exact (rubric_total_points_default sampleRubricDataNoTotal rfl).2 _

end SkillAssess

namespace SkillAssess

/-- Counterexample to C9: for the sample assessment, the validation
prompt embeds the full `json.dumps` serialization of the assessment
verbatim — it is not a compact summary. -/
theorem validationPrompt_not_compact_counterexample :
    ∃ pre post : String, buildValidationPrompt sampleAssessment =
      pre ++ serializeAssessment sampleAssessment ++ post :=
  ⟨validationPromptPrefix, validationPromptSuffix, rfl⟩

/-- C9 (amended): the validation prompt embeds the assessment's full
pretty-printed JSON serialization verbatim between one fixed prefix and
one fixed suffix (the fenced block), for every assessment. -/
theorem validationPrompt_embeds_full_serialization :
    ∃ pre post : String, ∀ a : AssessmentOutput,
      buildValidationPrompt a = pre ++ serializeAssessment a ++ post :=
  ⟨validationPromptPrefix, validationPromptSuffix, fun _ => rfl⟩

/-- The fence-stripping block maps an all-whitespace response to the
empty string. -/
theorem extractContent_of_ws {s : PyStr} (h : pyStrip s = []) :
    extractContent s = [] := by
  unfold extractContent
  rw [h]
  rfl

/-- Counterexample to C8: the whitespace-only response `" "` is empty
after trimming, yet the extractor fails with the JSON-parse
(malformed-structure) error, not the empty-response error — in both
agents. -/
theorem whitespace_response_error_kind_counterexample :
    parseResponse [' '] sampleInput "NOW" =
      .error (.exception "Failed to parse JSON response: Expecting value\nContent: ") ∧
    parseResponse [' '] sampleInput "NOW" ≠
      .error (.exception "Invalid response format: Empty response from API") ∧
    parseValidationResponse [' '] "NOW" =
      .error (.exception
        "Failed to parse validation JSON response: Expecting value\nContent: ") ∧
    parseValidationResponse [' '] "NOW" ≠
      .error (.exception
        "Invalid validation response format: Empty response from validation API") := by
  refine ⟨rfl, ?_, rfl, ?_⟩ <;>
    exact fun h => absurd (PyErr.exception.inj (Except.error.inj h)) (by decide)

/-- C8 (amended): only the truly empty response text takes the
empty-response branch; a non-empty, all-whitespace response passes the
emptiness check (which runs before stripping) and fails JSON parsing
with the malformed-structure error kind. -/
theorem empty_vs_whitespace_response (s : PyStr) (input_data : CompetencyInput)
    (now now' : String) (hne : s ≠ []) (hws : pyStrip s = []) :
    parseResponse [] input_data now =
      .error (.exception "Invalid response format: Empty response from API") ∧
    parseValidationResponse [] now' =
      .error (.exception "Invalid validation response format: Empty response from validation API") ∧
    parseResponse s input_data now =
      .error (.exception "Failed to parse JSON response: Expecting value\nContent: ") ∧
    parseValidationResponse s now' =
      .error (.exception
        "Failed to parse validation JSON response: Expecting value\nContent: ") := by
  have hie : s.isEmpty = false := by
    cases s with
    | nil => exact absurd rfl hne
    | cons a l => rfl
  have hec : extractContent s = [] := extractContent_of_ws hws
  have hbody : parseResponseBody s input_data now =
      .error (.jsonDecodeError "Expecting value") := by
    unfold parseResponseBody
    rw [hec]
    simp [hie]
    rfl
  have hvbody : parseValidationResponseBody s now' =
      .error (.jsonDecodeError "Expecting value") := by
    unfold parseValidationResponseBody
    rw [hec]
    simp [hie]
    rfl
  refine ⟨rfl, rfl, ?_, ?_⟩
  · unfold parseResponse
    rw [hbody, hec]
    rfl
  · unfold parseValidationResponse
    rw [hvbody, hec]
    rfl

/-- Witness for the amended C8 at the concrete whitespace-only
response `" "`. -/
theorem empty_vs_whitespace_response_witness :
    parseResponse [] sampleInput "NOW" =
      .error (.exception "Invalid response format: Empty response from API") ∧
    parseResponse [' '] sampleInput "NOW" =
      .error (.exception "Failed to parse JSON response: Expecting value\nContent: ") := by
  have h := empty_vs_whitespace_response [' '] sampleInput "NOW" "NOW"
    (by decide) (by decide)
  exact ⟨h.1, h.2.2.1⟩

end SkillAssess

namespace SkillAssess

/-- A list is a prefix (as a Boolean check) of itself followed by
anything. -/
theorem isPrefixOf_append_self (l r : List Char) : l.isPrefixOf (l ++ r) = true :=
  List.isPrefixOf_iff_prefix.mpr (List.prefix_append l r)

/-- The two parse pipelines agree on any two non-empty responses whose
extracted content coincides (generator side). -/
theorem parseResponse_ext {x y : PyStr} (input_data : CompetencyInput) (now : String)
    (hx : x.isEmpty = false) (hy : y.isEmpty = false)
    (he : extractContent x = extractContent y) :
    parseResponse x input_data now = parseResponse y input_data now := by
  have hb : parseResponseBody x input_data now = parseResponseBody y input_data now := by
    unfold parseResponseBody
    rw [hx, hy, he]
  unfold parseResponse
  rw [hb, he]

/-- The two parse pipelines agree on any two non-empty responses whose
extracted content coincides (critic side). -/
theorem parseValidationResponse_ext {x y : PyStr} (now : String)
    (hx : x.isEmpty = false) (hy : y.isEmpty = false)
    (he : extractContent x = extractContent y) :
    parseValidationResponse x now = parseValidationResponse y now := by
  have hb : parseValidationResponseBody x now = parseValidationResponseBody y now := by
    unfold parseValidationResponseBody
    rw [hx, hy, he]
  unfold parseValidationResponse
  rw [hb, he]

/-- A bare payload that neither starts nor ends with a fence marker
(after stripping) extracts to its stripped self. -/
theorem extractContent_bare (t : PyStr)
    (hpre : pyStartsWith "```".data (pyStrip t) = false)
    (hsuf : pyEndsWith "```".data (pyStrip t) = false) :
    extractContent t = pyStrip t := by
  have hpre7 : pyStartsWith "```json".data (pyStrip t) = false := by
    by_contra h
    rw [Bool.not_eq_false] at h
    have h1 : "```json".data <+: pyStrip t := List.isPrefixOf_iff_prefix.mp h
    have h2 : "```".data <+: "```json".data := ⟨"json".data, rfl⟩
    have h3 := List.isPrefixOf_iff_prefix.mpr (h2.trans h1)
    unfold pyStartsWith at hpre
    rw [hpre] at h3
    cases h3
  unfold extractContent
  simp only [hpre7, hpre, hsuf, Bool.false_eq_true, if_false, ite_false]
  exact pyStrip_idem t

/-- A payload wrapped in a ```` ```json ````-fenced block extracts to
the stripped payload: the fence prefix and suffix are recognized and
removed. -/
theorem extractContent_fenced (t : PyStr) :
    extractContent ("```json\n".data ++ t ++ "\n```".data) = pyStrip t := by
  have hw : "```json\n".data ++ t ++ "\n```".data
      = "```json".data ++ ('\n' :: (t ++ ('\n' :: "```".data))) := by
    have h1 : "```json\n".data = "```json".data ++ ['\n'] := rfl
    have h2 : "\n```".data = '\n' :: "```".data := rfl
    rw [h1, h2]
    simp [List.append_assoc]
  rw [hw]
  set A : PyStr := "```json".data with hA
  set R : PyStr := '\n' :: (t ++ ('\n' :: "```".data)) with hR
  -- `strip` leaves the fenced block unchanged: it starts and ends with a backtick
  have hcons : A ++ R = '`' :: ("``json".data ++ R) := by rw [hA]; rfl
  have hstripL : stripL (A ++ R) = A ++ R := by
    unfold stripL
    rw [hcons, List.dropWhile_cons, if_neg (by decide)]
  have hrev : (A ++ R).reverse
      = '`' :: '`' :: '`' :: '\n' :: (t.reverse ++ '\n' :: A.reverse) := by
    rw [hR, hA]
    simp
  have hstripR : stripR (A ++ R) = A ++ R := by
    unfold stripR
    rw [hrev, List.dropWhile_cons, if_neg (by decide)]
    rw [← hrev, List.reverse_reverse]
  have hstrip : pyStrip (A ++ R) = A ++ R := pyStrip_eq_self_of _ hstripL hstripR
  -- the "```json" prefix is found and removed
  have hpref : pyStartsWith A (A ++ R) = true := isPrefixOf_append_self A R
  have hdrop : (A ++ R).drop 7 = R := by
    have : A.length = 7 := rfl
    rw [← this]
    exact List.drop_left A R
  -- no further "```" prefix on the remainder
  have hpre3 : pyStartsWith "```".data R = false := by rw [hR]; rfl
  -- the trailing "```" is found and removed
  have hXR : R = ('\n' :: (t ++ ['\n'])) ++ "```".data := by
    rw [hR]
    simp [List.append_assoc]
  have hsuf3 : pyEndsWith "```".data R = true := by
    unfold pyEndsWith
    rw [hXR, List.reverse_append]
    exact isPrefixOf_append_self _ _
  have htake : R.take (R.length - 3) = '\n' :: (t ++ ['\n']) := by
    rw [hXR]
    have hlen : (('\n' :: (t ++ ['\n'])) ++ "```".data).length
        = ('\n' :: (t ++ ['\n'])).length + 3 := by simp
    rw [hlen]
    have : ('\n' :: (t ++ ['\n'])).length + 3 - 3 = ('\n' :: (t ++ ['\n'])).length := by
      omega
    rw [this]
    exact List.take_left _ _
  -- assemble the four steps
  unfold extractContent
  rw [hstrip]
  simp only [hpref, hdrop, hpre3, hsuf3, Bool.false_eq_true, if_true, if_false,
    ite_true, ite_false]
  rw [htake, pyStrip_cons_of_ws (by decide),
      pyStrip_concat_of_ws (by decide)]

/-- C7: wrapping a JSON payload in a ```` ```json ```` fenced block
changes nothing: the fenced and the bare response extract to the same
content and parse to identical structured results, in both the
generator and the critic pipeline. -/
theorem fenced_and_bare_parse_identically (t : PyStr) (input_data : CompetencyInput)
    (now now' : String) (hne : t ≠ [])
    (hpre : pyStartsWith "```".data (pyStrip t) = false)
    (hsuf : pyEndsWith "```".data (pyStrip t) = false) :
    extractContent ("```json\n".data ++ t ++ "\n```".data) = extractContent t ∧
    parseResponse ("```json\n".data ++ t ++ "\n```".data) input_data now
      = parseResponse t input_data now ∧
    parseValidationResponse ("```json\n".data ++ t ++ "\n```".data) now'
      = parseValidationResponse t now' := by
  have he : extractContent ("```json\n".data ++ t ++ "\n```".data) = extractContent t := by
    rw [extractContent_fenced t, extractContent_bare t hpre hsuf]
  have hwne : ("```json\n".data ++ t ++ "\n```".data).isEmpty = false := by
    have h1 : "```json\n".data = '`' :: "``json\n".data := rfl
    rw [h1]
    simp
  have htne : t.isEmpty = false := by
    cases t with
    | nil => exact absurd rfl hne
    | cons a l => rfl
  exact ⟨he, parseResponse_ext input_data now hwne htne he,
    parseValidationResponse_ext now' hwne htne he⟩

/-- Witness for C7 at the concrete payload `{"is_valid": true}`. -/
theorem fenced_and_bare_parse_identically_witness :
    parseValidationResponse ("```json\n".data ++ "\x7b\"is_valid\": true\x7d".data
        ++ "\n```".data) "NOW"
      = parseValidationResponse "\x7b\"is_valid\": true\x7d".data "NOW" := by
  have h := fenced_and_bare_parse_identically "\x7b\"is_valid\": true\x7d".data
    sampleInput "NOW" "NOW" (by decide) (by decide) (by decide)
  exact h.2.2

end SkillAssess

namespace SkillAssess

/-- A successful `_parse_response` means the `try`-body succeeded with
the same value (the `except` clauses only produce errors). -/
theorem parseResponse_ok_body {x : PyStr} {input_data : CompetencyInput}
    {now : String} {a : AssessmentOutput}
    (h : parseResponse x input_data now = .ok a) :
    parseResponseBody x input_data now = .ok a := by
  unfold parseResponse at h
  cases hb : parseResponseBody x input_data now with
  | ok b => rw [hb] at h; exact h
  | error e => rw [hb] at h; cases e <;> cases h

/-- C1: a successful generation whose parsed response carries exactly 3
criteria in each tier yields an `AssessmentOutput` whose grid has
exactly those 3 criteria per tier: each tier list is the element-wise
`Criterion.from_dict` image of the response array, in order — nothing
added, dropped, or reordered. -/
theorem generated_grid_matches_response (api_response : PyStr)
    (input_data : CompetencyInput) (now : String) (a : AssessmentOutput)
    (kvs gd : List (String × Json)) (l_nd l_ni l_na : List Json)
    (hok : parseResponse api_response input_data now = .ok a)
    (hjson : jsonLoads (extractContent api_response) = .ok (.obj kvs))
    (hgrid : jGetD kvs "grid" .null = .obj gd)
    (hnd : jGetD gd "nd_criteria" (.arr []) = .arr l_nd)
    (hni : jGetD gd "ni_criteria" (.arr []) = .arr l_ni)
    (hna : jGetD gd "na_criteria" (.arr []) = .arr l_na)
    (h3nd : l_nd.length = 3) (h3ni : l_ni.length = 3) (h3na : l_na.length = 3) :
    a.grid.nd_criteria.length = 3 ∧ a.grid.ni_criteria.length = 3 ∧
    a.grid.na_criteria.length = 3 ∧
    l_nd.mapM Criterion.from_dict = .ok a.grid.nd_criteria ∧
    l_ni.mapM Criterion.from_dict = .ok a.grid.ni_criteria ∧
    l_na.mapM Criterion.from_dict = .ok a.grid.na_criteria := by
  have h := parseResponse_ok_body hok
  unfold parseResponseBody at h
  cases hie : api_response.isEmpty with
  | true => rw [hie] at h; cases h
  | false =>
  rw [hie] at h
  simp only [Bool.false_eq_true, if_false, ite_false] at h
  obtain ⟨data, hdata, h⟩ := except_bind_ok.mp h
  rw [hjson] at hdata
  have hdata' : data = .obj kvs := Except.ok.inj hdata.symm
  subst hdata'
  obtain ⟨kvs', hkvs, h⟩ := except_bind_ok.mp h
  simp only [asObj] at hkvs
  injection hkvs with hkvs'
  subst hkvs'
  cases hk1 : jHasKey kvs "grid" with
  | false => rw [hk1] at h; cases h
  | true =>
  rw [hk1] at h
  simp only [Bool.not_true, Bool.false_eq_true, if_false, ite_false] at h
  cases hk2 : jHasKey kvs "situation" with
  | false => rw [hk2] at h; cases h
  | true =>
  rw [hk2] at h
  simp only [Bool.not_true, Bool.false_eq_true, if_false, ite_false] at h
  cases hk3 : jHasKey kvs "rubric" with
  | false => rw [hk3] at h; cases h
  | true =>
  rw [hk3] at h
  simp only [Bool.not_true, Bool.false_eq_true, if_false, ite_false] at h
  obtain ⟨gd', hgd, h⟩ := except_bind_ok.mp h
  rw [hgrid] at hgd
  simp only [asObj] at hgd
  injection hgd with hgd'
  subst hgd'
  obtain ⟨grid, hgridok, h⟩ := except_bind_ok.mp h
  -- destructure the grid parser
  unfold parseGridGen at hgridok
  obtain ⟨ndRaw, hndRaw, hgridok⟩ := except_bind_ok.mp hgridok
  rw [hnd] at hndRaw
  simp only [asArr] at hndRaw
  injection hndRaw with hndRaw'
  subst hndRaw'
  obtain ⟨nd, hndMap, hgridok⟩ := except_bind_ok.mp hgridok
  obtain ⟨niRaw, hniRaw, hgridok⟩ := except_bind_ok.mp hgridok
  rw [hni] at hniRaw
  simp only [asArr] at hniRaw
  injection hniRaw with hniRaw'
  subst hniRaw'
  obtain ⟨ni, hniMap, hgridok⟩ := except_bind_ok.mp hgridok
  obtain ⟨naRaw, hnaRaw, hgridok⟩ := except_bind_ok.mp hgridok
  rw [hna] at hnaRaw
  simp only [asArr] at hnaRaw
  injection hnaRaw with hnaRaw'
  subst hnaRaw'
  obtain ⟨na, hnaMap, hgridok⟩ := except_bind_ok.mp hgridok
  obtain ⟨hgrid', _, _, _⟩ := mkAPCGrid_ok hgridok
  subst hgrid'
  -- finish the main chain
  obtain ⟨sd, _, h⟩ := except_bind_ok.mp h
  obtain ⟨situation, _, h⟩ := except_bind_ok.mp h
  obtain ⟨rd, _, h⟩ := except_bind_ok.mp h
  obtain ⟨rubric, _, h⟩ := except_bind_ok.mp h
  have ha : a = mkAssessmentOutput now input_data ⟨nd, ni, na⟩ situation rubric :=
    (Except.ok.inj h).symm
  subst ha
  have hga : (mkAssessmentOutput now input_data ⟨nd, ni, na⟩ situation rubric).grid
      = ⟨nd, ni, na⟩ := rfl
  rw [hga]
  refine ⟨?_, ?_, ?_, hndMap, hniMap, hnaMap⟩
  · rw [show (⟨nd, ni, na⟩ : APCGrid).nd_criteria = nd from rfl,
        mapM_ok_length hndMap, h3nd]
  · rw [show (⟨nd, ni, na⟩ : APCGrid).ni_criteria = ni from rfl,
        mapM_ok_length hniMap, h3ni]
  · rw [show (⟨nd, ni, na⟩ : APCGrid).na_criteria = na from rfl,
        mapM_ok_length hnaMap, h3na]

set_option maxRecDepth 10000 in
/-- Witness for C1: the sample 3/3/3 response produces an assessment
with exactly the element-wise parsed criteria in each tier. -/
theorem generated_grid_matches_response_witness :
    sampleParsedAssessment.grid.nd_criteria.length = 3 ∧
    sampleParsedAssessment.grid.ni_criteria.length = 3 ∧
    sampleParsedAssessment.grid.na_criteria.length = 3 ∧
    sampleNd.mapM Criterion.from_dict = .ok sampleParsedAssessment.grid.nd_criteria ∧
    sampleNi.mapM Criterion.from_dict = .ok sampleParsedAssessment.grid.ni_criteria ∧
    sampleNa.mapM Criterion.from_dict = .ok sampleParsedAssessment.grid.na_criteria :=
  generated_grid_matches_response sampleResponseStr sampleInput "NOW"
    sampleParsedAssessment sampleResponseData sampleGridData sampleNd sampleNi sampleNa
    rfl rfl rfl rfl rfl rfl rfl rfl rfl

end SkillAssess
